import Mathlib

/-!
# Device controller: error-to-status mapping

A shallow embedding of
`device-service/pkg/rest/server/controllers/device-controller.go`.

The five handlers of `DeviceController` are pure functions from the
collaborators they call (the device service, gin's JSON binding, the process
environment) and the request to the single response they write together with
the ordered list of side effects they perform (service calls, log lines, span
attributes).

Library functions the handlers call are embedded next to them:
`strconv.ParseInt` (with `strconv.ParseUint`), `strconv.FormatInt`,
`errors.Is`, gin's rule for which statuses carry a body, and the JSON document
written for each value handed to `context.JSON` (a nil slice is `null`).
-/

namespace DeviceController

/-! ## Go values -/

/-- Modelled from the spec: `models.Device` is declared in package `models`,
which is outside the controller file. The spec describes it as an opaque record
with an integer identifier `id` and implementation-defined further fields; the
further fields are kept as one uninterpreted string. -/
structure Device where
  Id : Int
  fields : String
  deriving DecidableEq, Repr

/-- Go `error` values as the controller can observe them: through `Error()`
and through `errors.Is`, which follows `Unwrap()`.

* `errorString addr s` is a value made by `errors.New(s)`; `addr` stands for
  the pointer, so two sentinels with the same text are still different errors.
* `wrapError msg err` is a wrapper with message `msg` whose `Unwrap()` is `err`
  (what `fmt.Errorf` with `%w` builds).
* `numError Func Num Err` is `*strconv.NumError`. -/
inductive GoError where
  | errorString (addr : Nat) (s : String)
  | wrapError (msg : String) (err : GoError)
  | numError (Func : String) (Num : String) (Err : GoError)
  deriving DecidableEq, Repr

/-- The `Error()` method. `quote` is `strconv.Quote`, which `NumError.Error`
calls on the offending input. -/
def GoError.Error (quote : String → String) : GoError → String
  | .errorString _ s => s
  | .wrapError msg _ => msg
  | .numError fn num err =>
      "strconv." ++ fn ++ ": parsing " ++ quote num ++ ": " ++ err.Error quote

/-- The function `errors.Is(err, target)` for a non-nil `err` and `target`:
compare (`err == target`, here equality of the modelled values), then unwrap
and repeat until the chain ends. -/
def errorsIs (err target : GoError) : Bool :=
  decide (err = target) ||
    match err with
    | .errorString _ _ => false
    | .wrapError _ inner => errorsIs inner target
    | .numError _ _ inner => errorsIs inner target

/-- The relation "`err` is `target`, or wraps it", in the words of the
specification: the reflexive-transitive closure of `Unwrap()`. -/
inductive IsOrWraps (target : GoError) : GoError → Prop where
  | is : IsOrWraps target target
  | wrap (msg : String) {err : GoError} :
      IsOrWraps target err → IsOrWraps target (.wrapError msg err)
  | num (fn num : String) {err : GoError} :
      IsOrWraps target err → IsOrWraps target (.numError fn num err)

/-! ## strconv -/

/-- The sentinel `strconv.ErrSyntax`. -/
def ErrSyntax : GoError := .errorString 1 "invalid syntax"

/-- The sentinel `strconv.ErrRange`. -/
def ErrRange : GoError := .errorString 2 "value out of range"

/-- The helper `strconv.syntaxError(fn, str)`. -/
def syntaxError (fn str : String) : GoError := .numError fn str ErrSyntax

/-- The helper `strconv.rangeError(fn, str)`. -/
def rangeError (fn str : String) : GoError := .numError fn str ErrRange

/-- The UTF-8 encoding of one code point, as a list of byte values. -/
def utf8Char (c : Char) : List Nat :=
  let v := c.toNat
  if v ≤ 0x7f then [v]
  else if v ≤ 0x7ff then [0xc0 + v / 64 % 32, 0x80 + v % 64]
  else if v ≤ 0xffff then [0xe0 + v / 4096 % 16, 0x80 + v / 64 % 64, 0x80 + v % 64]
  else [0xf0 + v / 262144 % 8, 0x80 + v / 4096 % 64, 0x80 + v / 64 % 64, 0x80 + v % 64]

/-- The bytes of a Go string: `[]byte(s)`. -/
def goBytes (s : List Char) : List Nat :=
  s.flatMap utf8Char

/-- Go's `len(s)` for a string: its length in bytes. -/
def goLen (s : String) : Nat :=
  (goBytes s.toList).length

/-- The constant `maxUint64`. -/
def maxUint64 : Nat := 2 ^ 64 - 1

/-- The helper `strconv.lower(c)`: `c | ('x' - 'X')`. -/
def lower (c : Nat) : Nat := c ||| 0x20

/-- The value `maxVal := uint64(1)<<uint(bitSize) - 1` for `bitSize = 64`,
computed in `uint64` arithmetic. -/
def maxVal : Nat := ((1 <<< 64) % 2 ^ 64 + 2 ^ 64 - 1) % 2 ^ 64

/-- The cutoff of `ParseUint` for base 10: `maxUint64/10 + 1`, the smallest
number whose tenfold exceeds `maxUint64`. -/
def cutoff10 : Nat := maxUint64 / 10 + 1

/-- The `switch` at the top of the loop body of `ParseUint` (base not 0): the
digit value of the byte `c`, or `none` in the `default` case. -/
def digitOf (c : Nat) : Option Nat :=
  if 48 ≤ c ∧ c ≤ 57 then some (c - 48)
  else if 97 ≤ lower c ∧ lower c ≤ 122 then some (lower c - 97 + 10)
  else none

/-- The value `*strconv.NumError`, before it is returned as an `error`. -/
structure NumError where
  Func : String
  Num : String
  Err : GoError
  deriving DecidableEq, Repr

/-- A `*NumError` seen as an `error`. -/
def NumError.toError (e : NumError) : GoError := .numError e.Func e.Num e.Err

/-- The digit loop of `strconv.ParseUint(s, 10, 64)`: `n` is the `uint64`
accumulator, the list the bytes not yet read, `s0` the whole argument for the
error values. The result is Go's pair `(value, err)`. -/
def parseUintLoop (s0 : String) : List Nat → Nat → Nat × Option NumError
  | [], n => (n, none)
  | c :: cs, n =>
    match digitOf c with
    | none => (0, some ⟨"ParseUint", s0, ErrSyntax⟩)
    | some d =>
      if d ≥ 10 then (0, some ⟨"ParseUint", s0, ErrSyntax⟩)
      else if n ≥ cutoff10 then (maxVal, some ⟨"ParseUint", s0, ErrRange⟩)
      else
        let n10 := n * 10 % 2 ^ 64
        let n1 := (n10 + d) % 2 ^ 64
        if n1 < n10 ∨ n1 > maxVal then (maxVal, some ⟨"ParseUint", s0, ErrRange⟩)
        else parseUintLoop s0 cs n1

/-- The function `strconv.ParseUint(s, 10, 64)`. -/
def ParseUint (s : String) : Nat × Option NumError :=
  if s = "" then (0, some ⟨"ParseUint", s, ErrSyntax⟩)
  else parseUintLoop s (goBytes s.toList) 0

/-- The conversion `int64(x)`: wrap into the signed 64-bit range. -/
def toInt64 (x : Int) : Int := (x + 2 ^ 63) % 2 ^ 64 - 2 ^ 63

/-- The function `strconv.ParseInt(s, 10, 64)`, returning Go's pair
`(i, err)`. The sign test `s[0] == '+'` reads the first byte; when it holds the
first character is that one-byte sign, so the slice `s[1:]` is the string
without its first character. -/
def ParseInt (s : String) : Int × Option GoError :=
  if s = "" then (0, some (syntaxError "ParseInt" s))
  else
    let s0 := s
    let b0 := (goBytes s.toList).headD 0
    let neg := decide (b0 = 45)
    let s := if b0 = 43 ∨ b0 = 45 then String.mk s.toList.tail else s
    match ParseUint s with
    | (un, err) =>
      match err.filter (fun e => e.Err ≠ ErrRange) with
      | some e => (0, some (NumError.toError { e with Func := "ParseInt", Num := s0 }))
      | none =>
        let cutoff : Nat := (1 <<< 63) % 2 ^ 64
        if neg = false ∧ un ≥ cutoff then
          (toInt64 (cutoff - 1 : Nat), some (rangeError "ParseInt" s0))
        else if neg = true ∧ un > cutoff then
          (toInt64 (-toInt64 cutoff), some (rangeError "ParseInt" s0))
        else
          let n := toInt64 un
          (if neg then toInt64 (-n) else n, none)

/-- The function `strconv.FormatInt(i, 10)`: the decimal digits of `i`, after
a minus sign when `i` is negative. -/
def FormatInt (i : Int) : String :=
  if i < 0 then "-" ++ Nat.repr i.natAbs else Nat.repr i.natAbs

/-! ## HTTP and gin -/

/-- The constant `http.StatusOK`. -/
def StatusOK : Nat := 200
/-- The constant `http.StatusCreated`. -/
def StatusCreated : Nat := 201
/-- The constant `http.StatusNoContent`. -/
def StatusNoContent : Nat := 204
/-- The constant `http.StatusNotModified`. -/
def StatusNotModified : Nat := 304
/-- The constant `http.StatusBadRequest`. -/
def StatusBadRequest : Nat := 400
/-- The constant `http.StatusNotFound`. -/
def StatusNotFound : Nat := 404
/-- The constant `http.StatusUnprocessableEntity`. -/
def StatusUnprocessableEntity : Nat := 422
/-- The constant `http.StatusInternalServerError`. -/
def StatusInternalServerError : Nat := 500

/-- A Go slice of devices, `[]*models.Device`: the nil slice, or a non-nil
slice with its elements in order. Both `nil` and `elems []` have length 0. -/
inductive DeviceSlice where
  | nil
  | elems (items : List Device)
  deriving DecidableEq, Repr

/-- The elements of a slice in order; the nil slice has none. -/
def DeviceSlice.toList : DeviceSlice → List Device
  | .nil => []
  | .elems items => items

/-- The values the controller hands to `context.JSON`: a `gin.H` map whose
values are strings (listed as key/value pairs), one device, or a slice of
devices. -/
inductive Payload where
  | H (fields : List (String × String))
  | device (d : Device)
  | devices (ds : DeviceSlice)
  deriving DecidableEq, Repr

/-- The JSON documents the controller can put on the wire: `null`, an object
with string values, the object of one device, or an array of device objects. -/
inductive Json where
  | null
  | object (fields : List (String × String))
  | device (d : Device)
  | array (items : List Device)
  deriving DecidableEq, Repr

/-- The document `encoding/json` writes for a value handed to `context.JSON`.
A map is written as an object, and so is a device; a non-nil slice is written
as an array of its elements, and a nil slice as `null`. -/
def Payload.render : Payload → Json
  | .H fields => .object fields
  | .device d => .device d
  | .devices .nil => .null
  | .devices (.elems items) => .array items

/-- One call `context.JSON(code, obj)`: the response a handler writes. -/
structure Response where
  status : Nat
  obj : Payload
  deriving DecidableEq, Repr

/-- The rule `bodyAllowedForStatus` of gin: informational responses, 204 and
304 carry no body. -/
def bodyAllowedForStatus (status : Nat) : Bool :=
  if status ≥ 100 ∧ status ≤ 199 then false
  else if status = StatusNoContent then false
  else if status = StatusNotModified then false
  else true

/-- What `context.JSON` puts on the wire after the status line: the rendered
object, or nothing when the status allows no body. -/
def Response.body (r : Response) : Option Json :=
  if bodyAllowedForStatus r.status then some r.obj.render else none

/-- The side effects a handler performs, in program order. -/
inductive Event where
  | createDevice (input : Device)
  | listDevices
  | getDevice (id : Int)
  | updateDevice (id : Int) (input : Device)
  | deleteDevice (id : Int)
  | logError (err : GoError)
  | setAttributes (key : String) (value : String)
  deriving DecidableEq, Repr

/-- Whether an event is a call into the device service. -/
def Event.isServiceCall : Event → Bool
  | .logError _ => false
  | .setAttributes _ _ => false
  | _ => true

/-- The methods of `services.DeviceService` the controller calls. Package
`services` lies outside the controller file, so the service is a parameter:
each method is the result it gives for its arguments, an error standing for a
non-nil `err`. A handler calls the service at most once, so the state behind
the service does not enter. -/
structure DeviceService where
  CreateDevice : Device → Except GoError Device
  ListDevices : Except GoError DeviceSlice
  GetDevice : Int → Except GoError Device
  UpdateDevice : Int → Device → Except GoError Device
  DeleteDevice : Int → Option GoError

/-- Everything outside the controller that a handler consults, as parameters
of the handlers. -/
structure Env where
  deviceService : DeviceService
  /-- The call `context.ShouldBindJSON(&input)` as a function of the request body. -/
  ShouldBindJSON : String → Except GoError Device
  /-- The function `os.Getenv`. -/
  Getenv : String → String
  /-- The function `strconv.Quote`, used inside `NumError.Error`. -/
  Quote : String → String
  /-- The sentinel `sqls.ErrNotExists`; package `sqls` lies outside the
  controller file, so the sentinel is a parameter. -/
  ErrNotExists : GoError

/-- The parts of `*gin.Context` a handler reads. -/
structure Request where
  /-- The method `context.Param`. -/
  Param : String → String
  body : String

/-- A handler run: the response written and the side effects performed. -/
structure Outcome where
  response : Response
  events : List Event
  deriving DecidableEq, Repr

/-- The object `gin.H{"error": err.Error()}`. -/
def errorH (env : Env) (err : GoError) : Payload :=
  .H [("error", err.Error env.Quote)]

/-! ## The handlers -/

/-- The handler `DeviceController.CreateDevice`. -/
def CreateDevice (env : Env) (req : Request) : Outcome :=
  match env.ShouldBindJSON req.body with
  | .error err =>
    ⟨⟨StatusUnprocessableEntity, errorH env err⟩, [.logError err]⟩
  | .ok input =>
    match env.deviceService.CreateDevice input with
    | .error err =>
      ⟨⟨StatusInternalServerError, errorH env err⟩, [.createDevice input, .logError err]⟩
    | .ok deviceCreated =>
      ⟨⟨StatusCreated, .device deviceCreated⟩, [.createDevice input]⟩

/-- The handler `DeviceController.ListDevices`. -/
def ListDevices (env : Env) (_req : Request) : Outcome :=
  match env.deviceService.ListDevices with
  | .error err =>
    ⟨⟨StatusInternalServerError, errorH env err⟩, [.listDevices, .logError err]⟩
  | .ok devices =>
    ⟨⟨StatusOK, .devices devices⟩, [.listDevices]⟩

/-- The handler `DeviceController.FetchDevice`. -/
def FetchDevice (env : Env) (req : Request) : Outcome :=
  match ParseInt (req.Param "id") with
  | (_, some err) =>
    ⟨⟨StatusBadRequest, errorH env err⟩, [.logError err]⟩
  | (id, none) =>
    match env.deviceService.GetDevice id with
    | .error err =>
      if errorsIs err env.ErrNotExists then
        ⟨⟨StatusNotFound, errorH env err⟩, [.getDevice id, .logError err]⟩
      else
        ⟨⟨StatusInternalServerError, errorH env err⟩, [.getDevice id, .logError err]⟩
    | .ok device =>
      let serviceName := env.Getenv "SERVICE_NAME"
      let collectorURL := env.Getenv "OTEL_EXPORTER_OTLP_ENDPOINT"
      if goLen serviceName > 0 ∧ goLen collectorURL > 0 then
        ⟨⟨StatusOK, .device device⟩,
          [.getDevice id, .setAttributes "device.id" (FormatInt device.Id)]⟩
      else
        ⟨⟨StatusOK, .device device⟩, [.getDevice id]⟩

/-- The handler `DeviceController.UpdateDevice`. -/
def UpdateDevice (env : Env) (req : Request) : Outcome :=
  match env.ShouldBindJSON req.body with
  | .error err =>
    ⟨⟨StatusUnprocessableEntity, errorH env err⟩, [.logError err]⟩
  | .ok input =>
    match ParseInt (req.Param "id") with
    | (_, some err) =>
      ⟨⟨StatusBadRequest, errorH env err⟩, [.logError err]⟩
    | (id, none) =>
      match env.deviceService.UpdateDevice id input with
      | .error err =>
        if errorsIs err env.ErrNotExists then
          ⟨⟨StatusNotFound, errorH env err⟩, [.updateDevice id input, .logError err]⟩
        else
          ⟨⟨StatusInternalServerError, errorH env err⟩,
            [.updateDevice id input, .logError err]⟩
      | .ok _ =>
        ⟨⟨StatusNoContent, .H []⟩, [.updateDevice id input]⟩

/-- The handler `DeviceController.DeleteDevice`. -/
def DeleteDevice (env : Env) (req : Request) : Outcome :=
  match ParseInt (req.Param "id") with
  | (_, some err) =>
    ⟨⟨StatusBadRequest, errorH env err⟩, [.logError err]⟩
  | (id, none) =>
    match env.deviceService.DeleteDevice id with
    | some err =>
      ⟨⟨StatusInternalServerError, errorH env err⟩, [.deleteDevice id, .logError err]⟩
    | none =>
      ⟨⟨StatusNoContent, .H []⟩, [.deleteDevice id]⟩

/-! ## Observations on a run -/

/-- The service calls among the side effects of a run. -/
def Outcome.serviceCalls (o : Outcome) : List Event :=
  o.events.filter Event.isServiceCall

/-- The errors a run logged with `log.Error`, in order. -/
def Outcome.loggedErrors (o : Outcome) : List GoError :=
  o.events.filterMap fun
    | .logError err => some err
    | _ => none

/-- The shape of the error response for the error `err`: the run logged `err`
and nothing else, the value handed to the renderer is the one-entry map from
`error` to the message of `err`, and the document on the wire is the object
with that single field. -/
def Outcome.isErrorReplyFor (env : Env) (err : GoError) (o : Outcome) : Bool :=
  decide (o.loggedErrors = [err]) &&
    decide (o.response.obj = .H [("error", err.Error env.Quote)]) &&
    decide (o.response.body = some (.object [("error", err.Error env.Quote)]))

/-! ## The specification's reading of a path id -/

/-- The value of a decimal digit string read left to right from the
accumulator `n`. -/
def decimalFrom (n : Nat) (ds : List Char) : Nat :=
  ds.foldl (fun acc c => 10 * acc + (c.toNat - 48)) n

/-- In the words of the specification: the integer denoted by the digits `ds`
under the sign `neg`, when `ds` is one or more digits `0`-`9` and the number
lies between `-2^63` and `2^63 - 1`. -/
def int64OfSigned (neg : Bool) (ds : List Char) : Option Int :=
  if ds ≠ [] ∧ ds.all Char.isDigit = true then
    let v : Int := if neg then -(decimalFrom 0 ds : Int) else (decimalFrom 0 ds : Int)
    if -2 ^ 63 ≤ v ∧ v ≤ 2 ^ 63 - 1 then some v else none
  else none

/-- In the words of the specification: the 64-bit integer a path segment
denotes in base 10, if any. The segment is an optional sign followed by the
digits. -/
def int64OfDecimal (s : String) : Option Int :=
  match s.toList with
  | '+' :: ds => int64OfSigned false ds
  | '-' :: ds => int64OfSigned true ds
  | ds => int64OfSigned false ds

/-! ## Sample collaborators

A small concrete world for evaluating the handlers: a store that holds device
7 alone, reports device 42 as missing and fails on every other id. -/

/-- A stand-in for the sentinel `sqls.ErrNotExists`. -/
def sampleErrNotExists : GoError := .errorString 3 "row does not exist"

/-- An error that has nothing to do with a missing row. -/
def sampleErrDown : GoError := .errorString 5 "connection refused"

/-- The missing-row sentinel as a DAO would hand it up: wrapped with context. -/
def sampleErrMissing : GoError := .wrapError "device 42: row does not exist" sampleErrNotExists

/-- The request body of the specification's create scenario. -/
def sampleBody : String := "\x7b\"name\":\"sensor-1\"\x7d"

/-- The sample device service. -/
def sampleService : DeviceService where
  CreateDevice := fun d => if d.fields = "" then .error sampleErrDown else .ok ⟨7, d.fields⟩
  ListDevices := .ok (.elems [⟨7, "sensor-1"⟩])
  GetDevice := fun id =>
    if id = 7 then .ok ⟨7, "sensor-1"⟩
    else if id = 42 then .error sampleErrMissing
    else .error sampleErrDown
  UpdateDevice := fun id d =>
    if id = 7 then .ok ⟨7, d.fields⟩
    else if id = 42 then .error sampleErrMissing
    else .error sampleErrDown
  DeleteDevice := fun id =>
    if id = 7 then none
    else if id = 42 then some sampleErrNotExists
    else some sampleErrDown

/-- The sample world, with tracing unconfigured. Only `sampleBody` binds. -/
def sampleEnv : Env where
  deviceService := sampleService
  ShouldBindJSON := fun body =>
    if body = sampleBody then .ok ⟨0, "sensor-1"⟩
    else .error (.errorString 4 "invalid character")
  Getenv := fun _ => ""
  Quote := fun s => "\"" ++ s ++ "\""
  ErrNotExists := sampleErrNotExists

/-- The sample world with both tracing variables set. -/
def tracedEnv : Env :=
  { sampleEnv with
    Getenv := fun k =>
      if k = "SERVICE_NAME" then "device-service"
      else if k = "OTEL_EXPORTER_OTLP_ENDPOINT" then "collector:4317"
      else "" }

/-- The sample world over an empty store whose listing is the nil slice, what
`var devices []*models.Device` holds when no row was appended. -/
def nilListEnv : Env :=
  { sampleEnv with
    deviceService := { sampleService with ListDevices := .ok .nil } }

/-- The sample world over an empty store whose listing is an empty non-nil
slice, `[]*models.Device{}`. -/
def emptyListEnv : Env :=
  { sampleEnv with
    deviceService := { sampleService with ListDevices := .ok (.elems []) } }

/-- The sample world with a device service whose listing fails. -/
def brokenListEnv : Env :=
  { sampleEnv with
    deviceService := { sampleService with ListDevices := .error sampleErrDown } }

/-- A request with the given `id` path segment and body. -/
def sampleRequest (id body : String) : Request :=
  ⟨fun k => if k = "id" then id else "", body⟩

/-! ## The parser against its specification -/

theorem utf8Char_ascii (c : Char) (h : c.toNat ≤ 127) : utf8Char c = [c.toNat] := by
  simp [utf8Char, h]

theorem utf8Char_high (c : Char) (h : 127 < c.toNat) :
    ∃ b bs, utf8Char c = b :: bs ∧ 128 ≤ b := by
  unfold utf8Char
  simp only
  split_ifs with h1 h2 h3
  · omega
  · exact ⟨_, _, rfl, by omega⟩
  · exact ⟨_, _, rfl, by omega⟩
  · exact ⟨_, _, rfl, by omega⟩

theorem le_lower (b : Nat) : b ≤ lower b := by
  unfold lower
  exact Nat.le_of_testBit (fun i h => by simp [h])

theorem digitOf_high (b : Nat) (h : 128 ≤ b) : digitOf b = none := by
  have := le_lower b
  unfold digitOf
  rw [if_neg (by omega), if_neg (by omega)]

theorem isDigit_iff (c : Char) : c.isDigit = true ↔ 48 ≤ c.toNat ∧ c.toNat ≤ 57 := by
  simp only [Char.isDigit, Char.toNat, Bool.and_eq_true, decide_eq_true_eq, ge_iff_le]
  exact Iff.rfl


theorem decimalFrom_le (ds : List Char) (n : Nat) : n ≤ decimalFrom n ds := by
  induction ds generalizing n with
  | nil => simp [decimalFrom]
  | cons c cs ih =>
    have := ih (10 * n + (c.toNat - 48))
    simp only [decimalFrom, List.foldl_cons] at this ⊢
    omega

theorem decimalFrom_cons (c : Char) (cs : List Char) (n : Nat) :
    decimalFrom n (c :: cs) = decimalFrom (10 * n + (c.toNat - 48)) cs := rfl

/-- The digit loop on a string of digits: the number read, unless it leaves the
`uint64` range. -/
theorem parseUintLoop_digits (s0 : String) (ds : List Char)
    (hds : ds.all Char.isDigit = true) (n : Nat) (hn : n < 2 ^ 64) :
    parseUintLoop s0 (goBytes ds) n =
      if decimalFrom n ds < 2 ^ 64 then (decimalFrom n ds, none)
      else (maxVal, some ⟨"ParseUint", s0, ErrRange⟩) := by
  induction ds generalizing n with
  | nil =>
    have hn2 : n < 18446744073709551616 := by simpa using hn
    simp [goBytes, parseUintLoop, decimalFrom, hn2]
  | cons c cs ih =>
    simp only [List.all_cons, Bool.and_eq_true] at hds
    obtain ⟨hc, hcs⟩ := hds
    rw [isDigit_iff] at hc
    have hb : goBytes (c :: cs) = c.toNat :: goBytes cs := by
      simp [goBytes, utf8Char_ascii c (by omega)]
    have hd : digitOf c.toNat = some (c.toNat - 48) := by
      simp [digitOf, hc]
    have hle := decimalFrom_le cs (10 * n + (c.toNat - 48))
    rw [hb, parseUintLoop, hd, decimalFrom_cons]
    simp only [cutoff10, maxUint64, maxVal]
    norm_num
    rw [if_neg (by omega)]
    by_cases h1 : 1844674407370955162 ≤ n
    · rw [if_pos h1, if_neg (by omega)]
    · rw [if_neg h1]
      have e10 : n * 10 % 18446744073709551616 = n * 10 := Nat.mod_eq_of_lt (by omega)
      rw [e10]
      by_cases h2 : n * 10 + (c.toNat - 48) < 18446744073709551616
      · rw [Nat.mod_eq_of_lt h2, if_neg (by omega)]
        have := ih hcs (n * 10 + (c.toNat - 48)) (by simpa using h2)
        rw [this]
        simp [Nat.mul_comm, maxVal]
      · have : (n * 10 + (c.toNat - 48)) % 18446744073709551616
            = n * 10 + (c.toNat - 48) - 18446744073709551616 := by
          rw [Nat.mod_eq_sub_mod (by omega), Nat.mod_eq_of_lt (by omega)]
        rw [this, if_pos (by omega), if_neg (by omega)]


/-- A character that is not a digit stops the digit loop with an error,
wherever it stands. -/
theorem parseUintLoop_not_digits (s0 : String) (ds : List Char)
    (hds : ds.all Char.isDigit = false) (n : Nat) :
    (parseUintLoop s0 (goBytes ds) n).2 ≠ none := by
  induction ds generalizing n with
  | nil => simp at hds
  | cons c cs ih =>
    by_cases hc : c.isDigit = true
    · have hcs : cs.all Char.isDigit = false := by
        simpa [List.all_cons, hc] using hds
      rw [isDigit_iff] at hc
      have hb : goBytes (c :: cs) = c.toNat :: goBytes cs := by
        simp [goBytes, utf8Char_ascii c (by omega)]
      have hd : digitOf c.toNat = some (c.toNat - 48) := by
        simp [digitOf, hc]
      rw [hb, parseUintLoop, hd]
      simp only
      split_ifs
      · simp
      · simp
      · simp
      · exact ih hcs _
    · rw [isDigit_iff] at hc
      by_cases ha : c.toNat ≤ 127
      · have hb : goBytes (c :: cs) = c.toNat :: goBytes cs := by
          simp [goBytes, utf8Char_ascii c ha]
        have hd : digitOf c.toNat = none ∨ ∃ d, digitOf c.toNat = some d ∧ 10 ≤ d := by
          unfold digitOf
          rw [if_neg hc]
          split_ifs
          · exact Or.inr ⟨_, rfl, by omega⟩
          · exact Or.inl rfl
        rw [hb, parseUintLoop]
        rcases hd with hd | ⟨d, hd, hd10⟩
        · simp [hd]
        · simp [hd, hd10]
      · obtain ⟨b, bs, hbs, hb128⟩ := utf8Char_high c (by omega)
        have hb : goBytes (c :: cs) = b :: (bs ++ goBytes cs) := by
          simp [goBytes, hbs]
        rw [hb, parseUintLoop, digitOf_high b hb128]
        simp


/-- Every way out of the digit loop: a value without error, a syntax error with
value 0, or a range error with value `maxVal`. -/
theorem parseUintLoop_shape (s0 : String) (bs : List Nat) (n : Nat) :
    (∃ v, parseUintLoop s0 bs n = (v, none)) ∨
      parseUintLoop s0 bs n = (0, some ⟨"ParseUint", s0, ErrSyntax⟩) ∨
      parseUintLoop s0 bs n = (maxVal, some ⟨"ParseUint", s0, ErrRange⟩) := by
  induction bs generalizing n with
  | nil => exact Or.inl ⟨n, rfl⟩
  | cons b bs ih =>
    rw [parseUintLoop]
    cases digitOf b with
    | none => exact Or.inr (Or.inl rfl)
    | some d =>
      simp only
      split_ifs
      · exact Or.inr (Or.inl rfl)
      · exact Or.inr (Or.inr rfl)
      · exact Or.inr (Or.inr rfl)
      · exact ih _

/-- The three outcomes of `ParseUint` on a string, by the shape of the string. -/
theorem ParseUint_cases (ds : List Char) :
    (ds ≠ [] ∧ ds.all Char.isDigit = true ∧ decimalFrom 0 ds < 2 ^ 64 ∧
        ParseUint ⟨ds⟩ = (decimalFrom 0 ds, none)) ∨
      (ds ≠ [] ∧ ds.all Char.isDigit = true ∧ 2 ^ 64 ≤ decimalFrom 0 ds ∧
        ParseUint ⟨ds⟩ = (maxVal, some ⟨"ParseUint", ⟨ds⟩, ErrRange⟩)) ∨
      ((ds = [] ∨ ds.all Char.isDigit = false) ∧
        (ParseUint ⟨ds⟩ = (0, some ⟨"ParseUint", ⟨ds⟩, ErrSyntax⟩) ∨
          ParseUint ⟨ds⟩ = (maxVal, some ⟨"ParseUint", ⟨ds⟩, ErrRange⟩))) := by
  by_cases h0 : ds = []
  · subst h0
    exact Or.inr (Or.inr ⟨Or.inl rfl, Or.inl rfl⟩)
  · have hne : (⟨ds⟩ : String) ≠ "" := by
      intro h
      exact h0 (congrArg String.data h)
    have hU : ParseUint ⟨ds⟩ = parseUintLoop ⟨ds⟩ (goBytes ds) 0 := by
      simp [ParseUint, hne]
    by_cases hd : ds.all Char.isDigit = true
    · have hl := parseUintLoop_digits ⟨ds⟩ ds hd 0 (by norm_num)
      by_cases hv : decimalFrom 0 ds < 2 ^ 64
      · rw [if_pos hv] at hl
        exact Or.inl ⟨h0, hd, hv, hU.trans hl⟩
      · rw [if_neg hv] at hl
        exact Or.inr (Or.inl ⟨h0, hd, by omega, hU.trans hl⟩)
    · have hd2 : ds.all Char.isDigit = false := by simpa using hd
      have hne2 := parseUintLoop_not_digits ⟨ds⟩ ds hd2 0
      refine Or.inr (Or.inr ⟨Or.inr hd2, ?_⟩)
      rw [hU]
      rcases parseUintLoop_shape ⟨ds⟩ (goBytes ds) 0 with ⟨v, hv⟩ | h | h
      · rw [hv] at hne2
        exact absurd rfl hne2
      · exact Or.inl h
      · exact Or.inr h


/-- After the sign is split off, `ParseInt` agrees with the specification's
reading of the digits. -/
theorem ParseInt_of_sign (s : String) (neg : Bool) (ds : List Char) (hs : s ≠ "")
    (hneg : decide ((goBytes s.toList).headD 0 = 45) = neg)
    (hds : (if (goBytes s.toList).headD 0 = 43 ∨ (goBytes s.toList).headD 0 = 45
      then String.mk s.toList.tail else s) = ⟨ds⟩) :
    (∀ i, int64OfSigned neg ds = some i → ParseInt s = (i, none)) ∧
      (int64OfSigned neg ds = none → (ParseInt s).2 ≠ none) := by
  unfold ParseInt
  rw [if_neg hs]
  simp only [hneg, hds]
  have hc : ((1 <<< 63) % 2 ^ 64 : Nat) = 9223372036854775808 := by decide
  rw [hc]
  rcases ParseUint_cases ds with ⟨h0, hd, hv, hU⟩ | ⟨h0, hd, hv, hU⟩ | ⟨h0, hU⟩
  · rw [hU]
    simp only [Option.filter, int64OfSigned, h0, hd, ne_eq, not_false_eq_true, and_self, if_true]
    generalize decimalFrom 0 ds = v at hv
    have hv2 : v < 18446744073709551616 := by simpa using hv
    cases neg
    · simp only [Bool.false_eq_true, if_false, false_and, true_and]
      by_cases h : 9223372036854775808 ≤ v
      · rw [if_neg (by omega)]
        simp [h]
      · rw [if_pos (by omega)]
        have e : toInt64 (v : Int) = v := by unfold toInt64; omega
        simp [h, e]
    · simp only [if_true, true_and, Bool.true_eq_false, false_and, if_false]
      by_cases h : 9223372036854775808 < v
      · rw [if_neg (by omega)]
        simp [h]
      · rw [if_pos (by omega)]
        have e : toInt64 (-toInt64 (v : Int)) = -(v : Int) := by unfold toInt64; omega
        simp [h, e]
  · rw [hU]
    have hr : ErrRange ≠ ErrSyntax := by decide
    simp only [Option.filter, int64OfSigned, h0, hd, ne_eq, not_false_eq_true, and_self, if_true,
      not_true_eq_false, decide_False, Bool.false_eq_true, if_false]
    have hm : maxVal = 18446744073709551615 := by decide
    rw [hm]
    generalize decimalFrom 0 ds = v at hv
    have hv2 : 18446744073709551616 ≤ v := by simpa using hv
    cases neg
    · rw [if_neg (by simp; omega)]
      simp
    · rw [if_neg (by simp; omega)]
      simp
  · have hspec : int64OfSigned neg ds = none := by
      unfold int64OfSigned
      apply if_neg
      rintro ⟨h1, h2⟩
      rcases h0 with h0 | h0
      · exact h1 h0
      · rw [h0] at h2
        exact Bool.false_ne_true h2
    rw [hspec]
    refine ⟨fun i hi => Option.noConfusion hi, fun _ => ?_⟩
    have hm : maxVal = 18446744073709551615 := by decide
    rcases hU with hU | hU
    · rw [hU]
      have hr : ErrSyntax ≠ ErrRange := by decide
      simp [Option.filter, hr]
    · rw [hU, hm]
      simp only [Option.filter, ne_eq, not_true_eq_false, decide_False, Bool.false_eq_true,
        if_false]
      cases neg <;> simp


theorem goBytes_head_ascii (c : Char) (cs : List Char) (h : c.toNat ≤ 127) :
    (goBytes (c :: cs)).headD 0 = c.toNat := by
  simp [goBytes, utf8Char_ascii c h]

theorem goBytes_head_high (c : Char) (cs : List Char) (h : 127 < c.toNat) :
    128 ≤ (goBytes (c :: cs)).headD 0 := by
  obtain ⟨b, bs, hb, h128⟩ := utf8Char_high c h
  simpa [goBytes, hb] using h128

/-- The first byte of a non-empty string is the byte `k` of an ASCII character
exactly when its first character is that character. -/
theorem goBytes_head_eq_iff (c : Char) (cs : List Char) (k : Nat) (hk : k ≤ 127) :
    (goBytes (c :: cs)).headD 0 = k ↔ c.toNat = k := by
  by_cases h : c.toNat ≤ 127
  · rw [goBytes_head_ascii c cs h]
  · have := goBytes_head_high c cs (by omega)
    omega

theorem toNat_eq_iff (c d : Char) : c.toNat = d.toNat ↔ c = d := by
  constructor
  · intro h
    apply Char.ext
    apply UInt32.ext
    exact h
  · rintro rfl
    rfl

/-- The function `strconv.ParseInt` computes the integer the specification
reads off the string, and fails exactly when the specification reads none. -/
theorem ParseInt_refines (s : String) :
    (∀ i, int64OfDecimal s = some i → ParseInt s = (i, none)) ∧
      (int64OfDecimal s = none → (ParseInt s).2 ≠ none) := by
  obtain ⟨cs⟩ := s
  cases cs with
  | nil =>
    refine ⟨fun i hi => ?_, fun _ => ?_⟩
    · simp [int64OfDecimal, int64OfSigned] at hi
    · simp [ParseInt]
  | cons c cs =>
    have hs : (⟨c :: cs⟩ : String) ≠ "" := by
      intro h
      exact List.cons_ne_nil c cs (congrArg String.data h)
    have h43 := goBytes_head_eq_iff c cs 43 (by norm_num)
    have h45 := goBytes_head_eq_iff c cs 45 (by norm_num)
    by_cases hp : c = '+'
    · subst hp
      have e : int64OfDecimal ⟨'+' :: cs⟩ = int64OfSigned false cs := rfl
      rw [e]
      have b : (goBytes ('+' :: cs)).headD 0 = 43 := h43.2 rfl
      apply ParseInt_of_sign _ false cs hs
      · show decide ((goBytes ('+' :: cs)).headD 0 = 45) = false
        rw [b]
        rfl
      · show (if (goBytes ('+' :: cs)).headD 0 = 43 ∨ (goBytes ('+' :: cs)).headD 0 = 45
          then String.mk ('+' :: cs).tail else _) = _
        rw [if_pos (Or.inl b)]
        rfl
    · by_cases hm : c = '-'
      · subst hm
        have e : int64OfDecimal ⟨'-' :: cs⟩ = int64OfSigned true cs := rfl
        rw [e]
        have b : (goBytes ('-' :: cs)).headD 0 = 45 := h45.2 rfl
        apply ParseInt_of_sign _ true cs hs
        · show decide ((goBytes ('-' :: cs)).headD 0 = 45) = true
          rw [b]
          rfl
        · show (if (goBytes ('-' :: cs)).headD 0 = 43 ∨ (goBytes ('-' :: cs)).headD 0 = 45
            then String.mk ('-' :: cs).tail else _) = _
          rw [if_pos (Or.inr b)]
          rfl
      · have e : int64OfDecimal ⟨c :: cs⟩ = int64OfSigned false (c :: cs) := by
          unfold int64OfDecimal
          split
          · next h => simp at h; exact absurd h.1 hp
          · next h => simp at h; exact absurd h.1 hm
          · rfl
        have n43 : ¬ c.toNat = 43 := fun h => hp ((toNat_eq_iff c '+').1 h)
        have n45 : ¬ c.toNat = 45 := fun h => hm ((toNat_eq_iff c '-').1 h)
        rw [e]
        have b43 : ¬ (goBytes (c :: cs)).headD 0 = 43 := fun h => n43 (h43.1 h)
        have b45 : ¬ (goBytes (c :: cs)).headD 0 = 45 := fun h => n45 (h45.1 h)
        apply ParseInt_of_sign _ false (c :: cs) hs
        · exact decide_eq_false b45
        · show (if (goBytes (c :: cs)).headD 0 = 43 ∨ (goBytes (c :: cs)).headD 0 = 45
            then String.mk (c :: cs).tail else _) = _
          rw [if_neg (fun h => h.elim b43 b45)]

/-! ## The formatter against the parser's specification -/

theorem digitChar_digit (k : Nat) (hk : k < 10) :
    (Nat.digitChar k).isDigit = true ∧ (Nat.digitChar k).toNat - 48 = k := by
  interval_cases k <;> decide

theorem toDigitsCore_digits (fuel n : Nat) (acc : List Char) (hf : n < fuel)
    (hacc : acc.all Char.isDigit = true) :
    (Nat.toDigitsCore 10 fuel n acc).all Char.isDigit = true ∧
      Nat.toDigitsCore 10 fuel n acc ≠ [] ∧
      decimalFrom 0 (Nat.toDigitsCore 10 fuel n acc) = decimalFrom n acc := by
  induction fuel generalizing n acc with
  | zero => omega
  | succ fuel ih =>
    obtain ⟨hd, hv⟩ := digitChar_digit (n % 10) (Nat.mod_lt _ (by norm_num))
    have hacc2 : (Nat.digitChar (n % 10) :: acc).all Char.isDigit = true := by
      simp only [List.all_cons, hd, hacc, Bool.and_self]
    rw [Nat.toDigitsCore]
    split_ifs with h0
    · refine ⟨hacc2, List.cons_ne_nil _ _, ?_⟩
      rw [decimalFrom_cons, hv]
      congr 1
      omega
    · obtain ⟨h1, h2, h3⟩ := ih (n / 10) (Nat.digitChar (n % 10) :: acc) (by omega) hacc2
      refine ⟨h1, h2, ?_⟩
      rw [h3, decimalFrom_cons, hv]
      congr 1
      omega

/-- The string `FormatInt` prints for a 64-bit integer is the decimal string
the specification reads back as that integer. -/
theorem int64OfDecimal_FormatInt (i : Int) (hlo : -2 ^ 63 ≤ i) (hhi : i ≤ 2 ^ 63 - 1) :
    int64OfDecimal (FormatInt i) = some i := by
  obtain ⟨h1, h2, h3⟩ := toDigitsCore_digits (i.natAbs + 1) i.natAbs [] (by omega) rfl
  have hrepr : (Nat.repr i.natAbs).toList = Nat.toDigitsCore 10 (i.natAbs + 1) i.natAbs [] := rfl
  have hval : decimalFrom 0 (Nat.toDigitsCore 10 (i.natAbs + 1) i.natAbs []) = i.natAbs := h3
  unfold FormatInt
  split_ifs with hneg
  · have e : int64OfDecimal ("-" ++ Nat.repr i.natAbs) =
        int64OfSigned true (Nat.toDigitsCore 10 (i.natAbs + 1) i.natAbs []) := rfl
    rw [e]
    unfold int64OfSigned
    rw [if_pos ⟨h2, h1⟩, hval]
    simp only [if_true]
    rw [if_pos (by omega)]
    congr 1
    omega
  · have e : int64OfDecimal (Nat.repr i.natAbs) =
        int64OfSigned false (Nat.toDigitsCore 10 (i.natAbs + 1) i.natAbs []) := by
      unfold int64OfDecimal
      rw [hrepr]
      split
      · next ds h =>
        rw [h] at h1
        simp at h1
      · next ds h =>
        rw [h] at h1
        simp at h1
      · rfl
    rw [e]
    unfold int64OfSigned
    rw [if_pos ⟨h2, h1⟩, hval]
    simp only [Bool.false_eq_true, if_false]
    rw [if_pos (by omega)]
    congr 1
    omega

/-! ## Helper lemmas for the handlers -/

theorem ParseInt_of_some (s : String) (i : Int) (h : int64OfDecimal s = some i) :
    ParseInt s = (i, none) :=
  (ParseInt_refines s).1 i h

theorem ParseInt_of_none (s : String) (h : int64OfDecimal s = none) :
    ∃ i err, ParseInt s = (i, some err) := by
  have hne := (ParseInt_refines s).2 h
  rcases hP : ParseInt s with ⟨i, _ | err⟩
  · rw [hP] at hne
    exact absurd rfl hne
  · exact ⟨i, err, rfl⟩

/-- The function `errors.Is` decides the relation "is, or wraps". -/
theorem errorsIs_iff (err target : GoError) :
    errorsIs err target = true ↔ IsOrWraps target err := by
  induction err with
  | errorString a s =>
    unfold errorsIs
    constructor
    · intro h
      have : GoError.errorString a s = target := by simpa using h
      rw [this]
      exact IsOrWraps.is
    · intro h
      cases h
      simp
  | wrapError msg inner ih =>
    unfold errorsIs
    constructor
    · intro h
      rcases Bool.or_eq_true _ _ ▸ h with h | h
      · have : GoError.wrapError msg inner = target := by simpa using h
        rw [this]
        exact IsOrWraps.is
      · exact IsOrWraps.wrap msg (ih.1 h)
    · intro h
      cases h with
      | is => simp
      | wrap _ h => simp [ih.2 h]
  | numError fn num inner ih =>
    unfold errorsIs
    constructor
    · intro h
      rcases Bool.or_eq_true _ _ ▸ h with h | h
      · have : GoError.numError fn num inner = target := by simpa using h
        rw [this]
        exact IsOrWraps.is
      · exact IsOrWraps.num fn num (ih.1 h)
    · intro h
      cases h with
      | is => simp
      | num _ _ h => simp [ih.2 h]

theorem utf8Char_ne_nil (c : Char) : utf8Char c ≠ [] := by
  unfold utf8Char
  simp only
  split_ifs <;> simp

/-- Go's `len(s) > 0` says that `s` is not the empty string. -/
theorem goLen_pos_iff (s : String) : goLen s > 0 ↔ s ≠ "" := by
  obtain ⟨cs⟩ := s
  cases cs with
  | nil => simp [goLen, goBytes]
  | cons c cs =>
    have h1 : (⟨c :: cs⟩ : String) ≠ "" := by
      intro h
      exact List.cons_ne_nil c cs (congrArg String.data h)
    have h2 : goLen ⟨c :: cs⟩ > 0 := by
      have hc : 0 < (utf8Char c).length := List.length_pos.2 (utf8Char_ne_nil c)
      have e : goLen ⟨c :: cs⟩ = (utf8Char c).length + (goBytes cs).length := by
        simp [goLen, goBytes]
      omega
    exact ⟨fun _ => h1, fun _ => h2⟩

/-! ## The contract of the handlers -/

/-- Claim C1: for a path id that denotes a 64-bit integer (and, for
UpdateDevice, a body that binds to a Device), a service error that is or wraps
the not-found sentinel gives 404 from FetchDevice and UpdateDevice, and any
other service error gives 500. -/
theorem fetch_update_service_error_status (env : Env) (req : Request) (id : Int)
    (err : GoError) (hid : int64OfDecimal (req.Param "id") = some id) :
    (env.deviceService.GetDevice id = .error err →
      (IsOrWraps env.ErrNotExists err → (FetchDevice env req).response.status = 404) ∧
      (¬ IsOrWraps env.ErrNotExists err → (FetchDevice env req).response.status = 500)) ∧
    (∀ input, env.ShouldBindJSON req.body = .ok input →
      env.deviceService.UpdateDevice id input = .error err →
      (IsOrWraps env.ErrNotExists err → (UpdateDevice env req).response.status = 404) ∧
      (¬ IsOrWraps env.ErrNotExists err → (UpdateDevice env req).response.status = 500)) := by
  have hP := ParseInt_of_some _ _ hid
  refine ⟨fun hg => ⟨fun hw => ?_, fun hw => ?_⟩, fun input hb hu => ⟨fun hw => ?_, fun hw => ?_⟩⟩
  · have hi := (errorsIs_iff err env.ErrNotExists).2 hw
    simp [FetchDevice, hP, hg, hi, StatusNotFound]
  · have hi : errorsIs err env.ErrNotExists = false := by
      rw [← Bool.not_eq_true, errorsIs_iff]
      exact hw
    simp [FetchDevice, hP, hg, hi, StatusInternalServerError]
  · have hi := (errorsIs_iff err env.ErrNotExists).2 hw
    simp [UpdateDevice, hP, hb, hu, hi, StatusNotFound]
  · have hi : errorsIs err env.ErrNotExists = false := by
      rw [← Bool.not_eq_true, errorsIs_iff]
      exact hw
    simp [UpdateDevice, hP, hb, hu, hi, StatusInternalServerError]

/-- Witness for C1: in the sample world id 42 is missing (404) and id 13 fails
for another reason (500), for both handlers. -/
theorem fetch_update_service_error_status_witness :
    (FetchDevice sampleEnv (sampleRequest "42" sampleBody)).response.status = 404 ∧
    (UpdateDevice sampleEnv (sampleRequest "42" sampleBody)).response.status = 404 ∧
    (FetchDevice sampleEnv (sampleRequest "13" sampleBody)).response.status = 500 ∧
    (UpdateDevice sampleEnv (sampleRequest "13" sampleBody)).response.status = 500 :=
  have h42 := fetch_update_service_error_status sampleEnv (sampleRequest "42" sampleBody) 42
    sampleErrMissing (by decide)
  have h13 := fetch_update_service_error_status sampleEnv (sampleRequest "13" sampleBody) 13
    sampleErrDown (by decide)
  have w42 : IsOrWraps sampleEnv.ErrNotExists sampleErrMissing :=
    (errorsIs_iff _ _).1 (by decide)
  have w13 : ¬ IsOrWraps sampleEnv.ErrNotExists sampleErrDown :=
    fun h => absurd ((errorsIs_iff _ _).2 h) (by decide)
  ⟨(h42.1 rfl).1 w42, (h42.2 ⟨0, "sensor-1"⟩ rfl rfl).1 w42,
    (h13.1 rfl).2 w13, (h13.2 ⟨0, "sensor-1"⟩ rfl rfl).2 w13⟩

/-- Counterexample to C2 as stated: with the non-numeric id `abc` and a body
that does not bind, UpdateDevice answers 422, not 400. -/
theorem update_bad_id_bad_body_is_422 :
    int64OfDecimal ((sampleRequest "abc" "nope").Param "id") = none ∧
    (UpdateDevice sampleEnv (sampleRequest "abc" "nope")).response.status = 422 ∧
    (UpdateDevice sampleEnv (sampleRequest "abc" "nope")).response.status ≠ 400 := by
  decide

/-- Claim C2, amended: for a path id that denotes no 64-bit integer,
UpdateDevice never calls the service; it answers 400 when the body binds, and
422 when the body does not bind (the body is read first). -/
theorem update_bad_id (env : Env) (req : Request)
    (hid : int64OfDecimal (req.Param "id") = none) :
    (UpdateDevice env req).serviceCalls = [] ∧
    (∀ input, env.ShouldBindJSON req.body = .ok input →
      (UpdateDevice env req).response.status = 400) ∧
    (∀ err, env.ShouldBindJSON req.body = .error err →
      (UpdateDevice env req).response.status = 422) := by
  obtain ⟨i, e, hP⟩ := ParseInt_of_none _ hid
  refine ⟨?_, fun input hb => ?_, fun err hb => ?_⟩
  · cases hb : env.ShouldBindJSON req.body <;>
      simp [UpdateDevice, hP, hb, Outcome.serviceCalls, Event.isServiceCall]
  · simp [UpdateDevice, hP, hb, StatusBadRequest]
  · simp [UpdateDevice, hb, StatusUnprocessableEntity]

/-- Witness for the amended C2: `PUT /devices/abc` with a body that binds gives
400 and no service call. -/
theorem update_bad_id_witness :
    (UpdateDevice sampleEnv (sampleRequest "abc" sampleBody)).serviceCalls = [] ∧
    (UpdateDevice sampleEnv (sampleRequest "abc" sampleBody)).response.status = 400 :=
  have h := update_bad_id sampleEnv (sampleRequest "abc" sampleBody) (by decide)
  ⟨h.1, h.2.1 ⟨0, "sensor-1"⟩ rfl⟩

/-- Claim C3: for a path id that denotes no base-10 signed 64-bit integer,
FetchDevice and DeleteDevice answer 400 without calling the service; for one
that denotes the integer `id`, they never answer 400 and call the service
exactly once, with `id`. -/
theorem fetch_delete_id_parsing (env : Env) (req : Request) :
    (int64OfDecimal (req.Param "id") = none →
      (FetchDevice env req).response.status = 400 ∧
      (FetchDevice env req).serviceCalls = [] ∧
      (DeleteDevice env req).response.status = 400 ∧
      (DeleteDevice env req).serviceCalls = []) ∧
    (∀ id, int64OfDecimal (req.Param "id") = some id →
      (FetchDevice env req).response.status ≠ 400 ∧
      (FetchDevice env req).serviceCalls = [.getDevice id] ∧
      (DeleteDevice env req).response.status ≠ 400 ∧
      (DeleteDevice env req).serviceCalls = [.deleteDevice id]) := by
  constructor
  · intro hid
    obtain ⟨i, e, hP⟩ := ParseInt_of_none _ hid
    simp [FetchDevice, DeleteDevice, hP, Outcome.serviceCalls, Event.isServiceCall,
      StatusBadRequest]
  · intro id hid
    have hP := ParseInt_of_some _ _ hid
    refine ⟨?_, ?_, ?_, ?_⟩
    · cases hg : env.deviceService.GetDevice id <;>
        simp only [FetchDevice, hP, hg] <;> split_ifs <;>
        simp [StatusNotFound, StatusInternalServerError, StatusOK]
    · cases hg : env.deviceService.GetDevice id <;>
        simp only [FetchDevice, hP, hg] <;> split_ifs <;>
        simp [Outcome.serviceCalls, Event.isServiceCall]
    · cases hg : env.deviceService.DeleteDevice id <;>
        simp [DeleteDevice, hP, hg, StatusNoContent, StatusInternalServerError]
    · cases hg : env.deviceService.DeleteDevice id <;>
        simp [DeleteDevice, hP, hg, Outcome.serviceCalls, Event.isServiceCall]

/-- Witness for C3: the empty segment, `abc` and the out-of-range digit string
`9223372036854775808` give 400 and no service call; `7` and the largest
in-range value reach the service once with the parsed number. -/
theorem fetch_delete_id_parsing_witness :
    ((FetchDevice sampleEnv (sampleRequest "" "")).response.status = 400 ∧
      (DeleteDevice sampleEnv (sampleRequest "" "")).serviceCalls = []) ∧
    ((FetchDevice sampleEnv (sampleRequest "abc" "")).response.status = 400 ∧
      (DeleteDevice sampleEnv (sampleRequest "abc" "")).response.status = 400) ∧
    ((FetchDevice sampleEnv (sampleRequest "9223372036854775808" "")).response.status = 400 ∧
      (FetchDevice sampleEnv (sampleRequest "9223372036854775808" "")).serviceCalls = []) ∧
    ((FetchDevice sampleEnv (sampleRequest "7" "")).serviceCalls = [.getDevice 7] ∧
      (DeleteDevice sampleEnv (sampleRequest "7" "")).serviceCalls = [.deleteDevice 7]) ∧
    (DeleteDevice sampleEnv (sampleRequest "9223372036854775807" "")).serviceCalls =
      [.deleteDevice 9223372036854775807] :=
  have e := (fetch_delete_id_parsing sampleEnv (sampleRequest "" "")).1 (by decide)
  have a := (fetch_delete_id_parsing sampleEnv (sampleRequest "abc" "")).1 (by decide)
  have r := (fetch_delete_id_parsing sampleEnv (sampleRequest "9223372036854775808" "")).1
    (by decide)
  have s := (fetch_delete_id_parsing sampleEnv (sampleRequest "7" "")).2 7 (by decide)
  have m := (fetch_delete_id_parsing sampleEnv (sampleRequest "9223372036854775807" "")).2
    9223372036854775807 (by decide)
  ⟨⟨e.1, e.2.2.2⟩, ⟨a.1, a.2.2.1⟩, ⟨r.1, r.2.1⟩, ⟨s.2.1, s.2.2.2⟩, m.2.2.2⟩

/-- Claim C4: when the request body does not bind to a Device, CreateDevice
answers 422 and never calls the service. -/
theorem create_unbindable_body (env : Env) (req : Request) (err : GoError)
    (hb : env.ShouldBindJSON req.body = .error err) :
    (CreateDevice env req).response.status = 422 ∧
    (CreateDevice env req).serviceCalls = [] := by
  simp [CreateDevice, hb, Outcome.serviceCalls, Event.isServiceCall, StatusUnprocessableEntity]

/-- Witness for C4: the body `nope` does not bind in the sample world. -/
theorem create_unbindable_body_witness :
    (CreateDevice sampleEnv (sampleRequest "" "nope")).response.status = 422 ∧
    (CreateDevice sampleEnv (sampleRequest "" "nope")).serviceCalls = [] :=
  create_unbindable_body sampleEnv (sampleRequest "" "nope") (.errorString 4 "invalid character")
    rfl

/-- Claim C5: when the body binds to `input`, a successful `service.Create`
makes CreateDevice answer 201 with exactly the Device the service returned (so
the id in the body is the one the service assigned), and a failing
`service.Create` makes it answer 500. -/
theorem create_bound_body (env : Env) (req : Request) (input : Device)
    (hb : env.ShouldBindJSON req.body = .ok input) :
    (∀ created, env.deviceService.CreateDevice input = .ok created →
      (CreateDevice env req).response.status = 201 ∧
      (CreateDevice env req).response.obj = .device created ∧
      (CreateDevice env req).response.body = some (.device created)) ∧
    (∀ err, env.deviceService.CreateDevice input = .error err →
      (CreateDevice env req).response.status = 500) := by
  refine ⟨fun created hc => ?_, fun err hc => ?_⟩
  · simp [CreateDevice, hb, hc, StatusCreated, Response.body, Payload.render,
      bodyAllowedForStatus,
      StatusNoContent, StatusNotModified]
  · simp [CreateDevice, hb, hc, StatusInternalServerError]

/-- Witness for C5: the create scenario of the specification; the input carries
id 0 and the service assigns id 7, which is what the body shows. -/
theorem create_bound_body_witness :
    (CreateDevice sampleEnv (sampleRequest "" sampleBody)).response.status = 201 ∧
    (CreateDevice sampleEnv (sampleRequest "" sampleBody)).response.body =
      some (.device ⟨7, "sensor-1"⟩) :=
  have h := (create_bound_body sampleEnv (sampleRequest "" sampleBody) ⟨0, "sensor-1"⟩ rfl).1
    ⟨7, "sensor-1"⟩ rfl
  ⟨h.1, h.2.2⟩

/-- Claim C6: when the service call succeeds (the id denotes a 64-bit integer
and, for UpdateDevice, the body binds), UpdateDevice and DeleteDevice answer 204
with an empty body: the object handed to the renderer is the empty map, nothing
is written after the headers, and the updated Device is not returned. -/
theorem update_delete_success (env : Env) (req : Request) (id : Int)
    (hid : int64OfDecimal (req.Param "id") = some id) :
    (∀ input updated, env.ShouldBindJSON req.body = .ok input →
      env.deviceService.UpdateDevice id input = .ok updated →
      (UpdateDevice env req).response.status = 204 ∧
      (UpdateDevice env req).response.obj = .H [] ∧
      (UpdateDevice env req).response.body = none ∧
      (UpdateDevice env req).response.obj ≠ .device updated) ∧
    (env.deviceService.DeleteDevice id = none →
      (DeleteDevice env req).response.status = 204 ∧
      (DeleteDevice env req).response.obj = .H [] ∧
      (DeleteDevice env req).response.body = none) := by
  have hP := ParseInt_of_some _ _ hid
  refine ⟨fun input updated hb hu => ?_, fun hd => ?_⟩
  · simp [UpdateDevice, hP, hb, hu, StatusNoContent, Response.body, bodyAllowedForStatus]
  · simp [DeleteDevice, hP, hd, StatusNoContent, Response.body, bodyAllowedForStatus]

/-- Witness for C6: updating and deleting device 7 in the sample world. -/
theorem update_delete_success_witness :
    ((UpdateDevice sampleEnv (sampleRequest "7" sampleBody)).response.status = 204 ∧
      (UpdateDevice sampleEnv (sampleRequest "7" sampleBody)).response.body = none) ∧
    ((DeleteDevice sampleEnv (sampleRequest "7" "")).response.status = 204 ∧
      (DeleteDevice sampleEnv (sampleRequest "7" "")).response.body = none) :=
  have u := (update_delete_success sampleEnv (sampleRequest "7" sampleBody) 7 (by decide)).1
    ⟨0, "sensor-1"⟩ ⟨7, "sensor-1"⟩ rfl rfl
  have d := (update_delete_success sampleEnv (sampleRequest "7" "") 7 (by decide)).2 rfl
  ⟨⟨u.1, u.2.2.1⟩, ⟨d.1, d.2.2⟩⟩

/-- Claim C7: for a path id that denotes a 64-bit integer, DeleteDevice answers
500 for every error `service.Delete` returns, the not-found sentinel included;
DeleteDevice never answers 404. -/
theorem delete_error_is_500 (env : Env) (req : Request) (id : Int)
    (hid : int64OfDecimal (req.Param "id") = some id) :
    (∀ err, env.deviceService.DeleteDevice id = some err →
      (DeleteDevice env req).response.status = 500) ∧
    (env.deviceService.DeleteDevice id = some env.ErrNotExists →
      (DeleteDevice env req).response.status = 500) ∧
    (DeleteDevice env req).response.status ≠ 404 := by
  have hP := ParseInt_of_some _ _ hid
  refine ⟨fun err hd => ?_, fun hd => ?_, ?_⟩
  · simp [DeleteDevice, hP, hd, StatusInternalServerError]
  · simp [DeleteDevice, hP, hd, StatusInternalServerError]
  · cases hd : env.deviceService.DeleteDevice id <;>
      simp [DeleteDevice, hP, hd, StatusInternalServerError, StatusNoContent]

/-- Witness for C7: deleting the missing device 42 in the sample world, where
the service returns the not-found sentinel itself. -/
theorem delete_error_is_500_witness :
    sampleEnv.deviceService.DeleteDevice 42 = some sampleEnv.ErrNotExists ∧
    (DeleteDevice sampleEnv (sampleRequest "42" "")).response.status = 500 :=
  ⟨rfl, (delete_error_is_500 sampleEnv (sampleRequest "42" "") 42 (by decide)).2.1 rfl⟩

/-- Counterexample to C8 as stated: over an empty store whose listing is the
nil slice, a sequence of length 0, ListDevices answers 200 with the body
`null`, not with an empty array. -/
theorem list_nil_slice_is_null :
    nilListEnv.deviceService.ListDevices = .ok .nil ∧
    DeviceSlice.nil.toList.length = 0 ∧
    (ListDevices nilListEnv (sampleRequest "" "")).response.status = 200 ∧
    (ListDevices nilListEnv (sampleRequest "" "")).response.body = some .null ∧
    (ListDevices nilListEnv (sampleRequest "" "")).response.body ≠ some (.array []) :=
  ⟨rfl, rfl, by decide, by decide, by decide⟩

/-- Claim C8, amended: ListDevices answers 200 whenever `service.List` succeeds
and hands the slice the service returned to the renderer unchanged; a non-nil
slice is written as the array of its elements (same order, same length, the
empty one as the empty array) and the nil slice as `null`, in both cases with
status 200 and not as an error; and it answers 500 exactly when `service.List`
fails. -/
theorem list_devices_contract (env : Env) (req : Request) :
    (∀ devices, env.deviceService.ListDevices = .ok devices →
      (ListDevices env req).response.status = 200 ∧
      (ListDevices env req).response.obj = .devices devices) ∧
    (∀ items, env.deviceService.ListDevices = .ok (.elems items) →
      (ListDevices env req).response.status = 200 ∧
      (ListDevices env req).response.body = some (.array items)) ∧
    (env.deviceService.ListDevices = .ok .nil →
      (ListDevices env req).response.status = 200 ∧
      (ListDevices env req).response.body = some .null) ∧
    ((ListDevices env req).response.status = 500 ↔
      ∃ err, env.deviceService.ListDevices = .error err) := by
  refine ⟨fun devices hl => ?_, fun items hl => ?_, fun hl => ?_, ?_⟩
  · simp [ListDevices, hl, StatusOK]
  · simp [ListDevices, hl, StatusOK, Response.body, Payload.render, bodyAllowedForStatus,
      StatusNoContent, StatusNotModified]
  · simp [ListDevices, hl, StatusOK, Response.body, Payload.render, bodyAllowedForStatus,
      StatusNoContent, StatusNotModified]
  · cases hl : env.deviceService.ListDevices <;>
      simp [ListDevices, hl, StatusOK, StatusInternalServerError]

/-- Witness for the amended C8: the one-device store lists as the array of that
device, the empty non-nil slice as the empty array, the nil slice as `null`,
all with 200; a failing listing gives 500. -/
theorem list_devices_contract_witness :
    (ListDevices sampleEnv (sampleRequest "" "")).response.body =
      some (.array [⟨7, "sensor-1"⟩]) ∧
    ((ListDevices emptyListEnv (sampleRequest "" "")).response.status = 200 ∧
      (ListDevices emptyListEnv (sampleRequest "" "")).response.body = some (.array [])) ∧
    ((ListDevices nilListEnv (sampleRequest "" "")).response.status = 200 ∧
      (ListDevices nilListEnv (sampleRequest "" "")).response.body = some .null) ∧
    (ListDevices brokenListEnv (sampleRequest "" "")).response.status = 500 :=
  ⟨((list_devices_contract sampleEnv (sampleRequest "" "")).2.1 _ rfl).2,
    (list_devices_contract emptyListEnv (sampleRequest "" "")).2.1 [] rfl,
    (list_devices_contract nilListEnv (sampleRequest "" "")).2.2.1 rfl,
    (list_devices_contract brokenListEnv (sampleRequest "" "")).2.2.2.2 ⟨sampleErrDown, rfl⟩⟩

/-- Claim C9: for each of the five handlers and every input, when the status
is 400, 404, 422 or 500 the response body is the object with the single field
`error` whose value is the message of the error that was detected: the error
`ShouldBindJSON` returned, or else the one `ParseInt` returned, or else the one
the service call returned. That error is also the one error the run logs. -/
theorem error_reply_shape (env : Env) (req : Request) :
    ((CreateDevice env req).response.status ∈ [400, 404, 422, 500] →
      ∃ err,
        (env.ShouldBindJSON req.body = .error err ∨
          ∃ input, env.ShouldBindJSON req.body = .ok input ∧
            env.deviceService.CreateDevice input = .error err) ∧
        (CreateDevice env req).isErrorReplyFor env err = true) ∧
    ((ListDevices env req).response.status ∈ [400, 404, 422, 500] →
      ∃ err, env.deviceService.ListDevices = .error err ∧
        (ListDevices env req).isErrorReplyFor env err = true) ∧
    ((FetchDevice env req).response.status ∈ [400, 404, 422, 500] →
      ∃ err,
        ((ParseInt (req.Param "id")).2 = some err ∨
          ∃ id, ParseInt (req.Param "id") = (id, none) ∧
            env.deviceService.GetDevice id = .error err) ∧
        (FetchDevice env req).isErrorReplyFor env err = true) ∧
    ((UpdateDevice env req).response.status ∈ [400, 404, 422, 500] →
      ∃ err,
        (env.ShouldBindJSON req.body = .error err ∨
          ∃ input, env.ShouldBindJSON req.body = .ok input ∧
            ((ParseInt (req.Param "id")).2 = some err ∨
              ∃ id, ParseInt (req.Param "id") = (id, none) ∧
                env.deviceService.UpdateDevice id input = .error err)) ∧
        (UpdateDevice env req).isErrorReplyFor env err = true) ∧
    ((DeleteDevice env req).response.status ∈ [400, 404, 422, 500] →
      ∃ err,
        ((ParseInt (req.Param "id")).2 = some err ∨
          ∃ id, ParseInt (req.Param "id") = (id, none) ∧
            env.deviceService.DeleteDevice id = some err) ∧
        (DeleteDevice env req).isErrorReplyFor env err = true) := by
  refine ⟨?_, ?_, ?_, ?_, ?_⟩
  · cases hb : env.ShouldBindJSON req.body with
    | error err =>
      intro _
      refine ⟨err, Or.inl rfl, ?_⟩
      simp [CreateDevice, hb, Outcome.isErrorReplyFor, Outcome.loggedErrors, errorH,
        Response.body, Payload.render, bodyAllowedForStatus, StatusUnprocessableEntity,
        StatusNoContent, StatusNotModified]
    | ok input =>
      cases hc : env.deviceService.CreateDevice input with
      | error err =>
        intro _
        refine ⟨err, Or.inr ⟨input, rfl, hc⟩, ?_⟩
        simp [CreateDevice, hb, hc, Outcome.isErrorReplyFor, Outcome.loggedErrors, errorH,
          Response.body, Payload.render, bodyAllowedForStatus, StatusInternalServerError,
          StatusNoContent, StatusNotModified]
      | ok created =>
        simp [CreateDevice, hb, hc, StatusCreated]
  · cases hl : env.deviceService.ListDevices with
    | error err =>
      intro _
      refine ⟨err, rfl, ?_⟩
      simp [ListDevices, hl, Outcome.isErrorReplyFor, Outcome.loggedErrors, errorH,
        Response.body, Payload.render, bodyAllowedForStatus, StatusInternalServerError,
        StatusNoContent, StatusNotModified]
    | ok devices =>
      simp [ListDevices, hl, StatusOK]
  · rcases hP : ParseInt (req.Param "id") with ⟨id, _ | perr⟩
    · cases hg : env.deviceService.GetDevice id with
      | error err =>
        intro _
        refine ⟨err, Or.inr ⟨id, rfl, hg⟩, ?_⟩
        simp only [FetchDevice, hP, hg]
        split_ifs <;>
          simp [Outcome.isErrorReplyFor, Outcome.loggedErrors, errorH, Response.body,
            Payload.render, bodyAllowedForStatus, StatusInternalServerError, StatusNotFound,
            StatusNoContent, StatusNotModified]
      | ok device =>
        simp only [FetchDevice, hP, hg]
        split_ifs <;> simp [StatusOK]
    · intro _
      refine ⟨perr, Or.inl rfl, ?_⟩
      simp [FetchDevice, hP, Outcome.isErrorReplyFor, Outcome.loggedErrors, errorH,
        Response.body, Payload.render, bodyAllowedForStatus, StatusBadRequest,
        StatusNoContent, StatusNotModified]
  · cases hb : env.ShouldBindJSON req.body with
    | error err =>
      intro _
      refine ⟨err, Or.inl rfl, ?_⟩
      simp [UpdateDevice, hb, Outcome.isErrorReplyFor, Outcome.loggedErrors, errorH,
        Response.body, Payload.render, bodyAllowedForStatus, StatusUnprocessableEntity,
        StatusNoContent, StatusNotModified]
    | ok input =>
      rcases hP : ParseInt (req.Param "id") with ⟨id, _ | perr⟩
      · cases hg : env.deviceService.UpdateDevice id input with
        | error err =>
          intro _
          refine ⟨err, Or.inr ⟨input, rfl, Or.inr ⟨id, rfl, hg⟩⟩, ?_⟩
          simp only [UpdateDevice, hb, hP, hg]
          split_ifs <;>
            simp [Outcome.isErrorReplyFor, Outcome.loggedErrors, errorH, Response.body,
              Payload.render, bodyAllowedForStatus, StatusInternalServerError, StatusNotFound,
              StatusNoContent, StatusNotModified]
        | ok updated =>
          simp [UpdateDevice, hb, hP, hg, StatusNoContent]
      · intro _
        refine ⟨perr, Or.inr ⟨input, rfl, Or.inl rfl⟩, ?_⟩
        simp [UpdateDevice, hb, hP, Outcome.isErrorReplyFor, Outcome.loggedErrors, errorH,
          Response.body, Payload.render, bodyAllowedForStatus, StatusBadRequest,
          StatusNoContent, StatusNotModified]
  · rcases hP : ParseInt (req.Param "id") with ⟨id, _ | perr⟩
    · cases hg : env.deviceService.DeleteDevice id with
      | some err =>
        intro _
        refine ⟨err, Or.inr ⟨id, rfl, hg⟩, ?_⟩
        simp [DeleteDevice, hP, hg, Outcome.isErrorReplyFor, Outcome.loggedErrors, errorH,
          Response.body, Payload.render, bodyAllowedForStatus, StatusInternalServerError,
          StatusNoContent, StatusNotModified]
      | none =>
        simp [DeleteDevice, hP, hg, StatusNoContent]
    · intro _
      refine ⟨perr, Or.inl rfl, ?_⟩
      simp [DeleteDevice, hP, Outcome.isErrorReplyFor, Outcome.loggedErrors, errorH,
        Response.body, Payload.render, bodyAllowedForStatus, StatusBadRequest,
        StatusNoContent, StatusNotModified]

/-- Witness for C9: the 404 of the specification's fetch scenario
(`GET /devices/42` with device 42 missing) carries the message of the error
`service.Get` returned, and the 400 of `DELETE /devices/abc` the message of the
error `ParseInt` returned. -/
theorem error_reply_shape_witness :
    (∃ err,
      ((ParseInt ((sampleRequest "42" "").Param "id")).2 = some err ∨
        ∃ id, ParseInt ((sampleRequest "42" "").Param "id") = (id, none) ∧
          sampleEnv.deviceService.GetDevice id = .error err) ∧
      (FetchDevice sampleEnv (sampleRequest "42" "")).isErrorReplyFor sampleEnv err = true) ∧
    (FetchDevice sampleEnv (sampleRequest "42" "")).response.body =
      some (.object [("error", "device 42: row does not exist")]) ∧
    (∃ err,
      ((ParseInt ((sampleRequest "abc" "").Param "id")).2 = some err ∨
        ∃ id, ParseInt ((sampleRequest "abc" "").Param "id") = (id, none) ∧
          sampleEnv.deviceService.DeleteDevice id = some err) ∧
      (DeleteDevice sampleEnv (sampleRequest "abc" "")).isErrorReplyFor sampleEnv err = true) ∧
    (DeleteDevice sampleEnv (sampleRequest "abc" "")).response.body =
      some (.object [("error", "strconv.ParseInt: parsing \"abc\": invalid syntax")]) :=
  ⟨(error_reply_shape sampleEnv (sampleRequest "42" "")).2.2.1 (by decide), by decide,
    (error_reply_shape sampleEnv (sampleRequest "abc" "")).2.2.2.2 (by decide), by decide⟩

/-- Claim C10: FetchDevice sets the span attribute `device.id` exactly when the
fetch succeeded and both the service-name and the collector-endpoint
configuration values are non-empty; the only attribute it ever sets is
`device.id`, with the decimal string of the returned Device's id (what
`FormatInt` prints, which reads back as that id); and the response is the same
whatever the configuration values are. -/
theorem fetch_span_attribute (env : Env) (req : Request) :
    ((∃ v, Event.setAttributes "device.id" v ∈ (FetchDevice env req).events) ↔
      (∃ id device, int64OfDecimal (req.Param "id") = some id ∧
        env.deviceService.GetDevice id = .ok device) ∧
      env.Getenv "SERVICE_NAME" ≠ "" ∧ env.Getenv "OTEL_EXPORTER_OTLP_ENDPOINT" ≠ "") ∧
    (∀ k v, Event.setAttributes k v ∈ (FetchDevice env req).events →
      k = "device.id" ∧
      ∃ id device, int64OfDecimal (req.Param "id") = some id ∧
        env.deviceService.GetDevice id = .ok device ∧ v = FormatInt device.Id ∧
        (-2 ^ 63 ≤ device.Id → device.Id ≤ 2 ^ 63 - 1 → int64OfDecimal v = some device.Id)) ∧
    (∀ getenv₁ getenv₂,
      (FetchDevice { env with Getenv := getenv₁ } req).response =
        (FetchDevice { env with Getenv := getenv₂ } req).response) := by
  refine ⟨?_, ?_, ?_⟩
  · cases hid : int64OfDecimal (req.Param "id") with
    | none =>
      obtain ⟨i, e, hP⟩ := ParseInt_of_none _ hid
      simp [FetchDevice, hP]
    | some id =>
      have hP := ParseInt_of_some _ _ hid
      cases hg : env.deviceService.GetDevice id with
      | error err =>
        simp only [FetchDevice, hP, hg]
        split_ifs <;> simp [hg]
      | ok device =>
        simp only [FetchDevice, hP, hg, goLen_pos_iff]
        split_ifs with h
        · simp [h.1, h.2, hg]
        · simp [hg]
          tauto
  · intro k v
    cases hid : int64OfDecimal (req.Param "id") with
    | none =>
      obtain ⟨i, e, hP⟩ := ParseInt_of_none _ hid
      simp [FetchDevice, hP]
    | some id =>
      have hP := ParseInt_of_some _ _ hid
      cases hg : env.deviceService.GetDevice id with
      | error err =>
        simp only [FetchDevice, hP, hg]
        split_ifs <;> simp
      | ok device =>
        simp only [FetchDevice, hP, hg]
        split_ifs <;> simp
        rintro rfl rfl
        exact ⟨rfl, device, hg, rfl, int64OfDecimal_FormatInt device.Id⟩
  · intro g₁ g₂
    rcases hP : ParseInt (req.Param "id") with ⟨id, _ | perr⟩
    · cases hg : env.deviceService.GetDevice id with
      | error err =>
        simp only [FetchDevice, hP, hg]
        split_ifs <;> rfl
      | ok device =>
        simp only [FetchDevice, hP, hg]
        split_ifs <;> rfl
    · simp [FetchDevice, hP, errorH]

/-- Witness for C10: fetching device 7 sets `device.id` to `7` when both
variables are set and sets nothing when they are not, with the same response. -/
theorem fetch_span_attribute_witness :
    (FetchDevice tracedEnv (sampleRequest "7" "")).events =
      [.getDevice 7, .setAttributes "device.id" "7"] ∧
    (FetchDevice sampleEnv (sampleRequest "7" "")).events = [.getDevice 7] ∧
    (FetchDevice tracedEnv (sampleRequest "7" "")).response =
      (FetchDevice sampleEnv (sampleRequest "7" "")).response :=
  ⟨by decide, by decide,
    (fetch_span_attribute sampleEnv (sampleRequest "7" "")).2.2 tracedEnv.Getenv sampleEnv.Getenv⟩

end DeviceController
